import Mathlib

/-!
Verification development for the pyvoyis protocol engine.

Shallow embedding of the repository's core protocol code:
  * `src/pyvoyis/state_machine.py` (lifecycle state machine),
  * `src/pyvoyis/api.py` (command/ack correlator `send_message`,
    orchestration tick `infinite_loop`, notification store
    `process_message`),
  * `src/pyvoyis/api500/client.py` (frame splitting in `data_received`,
    `process_data`, connection flag),
  * `src/pyvoyis/api500/command.py` and `src/pyvoyis/messages.py`
    (command serialization, `ValueHistory`).

Machine strings are modelled as `String`/`List Char`; fallible Python
code (raising) is modelled with `Option`/`Except`; the wall clock is an
explicit `Nat` parameter.
-/

namespace Voyis

/-! ## Lifecycle state machine (`state_machine.py`) -/

/-- The nine states of `VoyisAPIStateMachine`. -/
inductive SMState where
  | idling
  | connecting
  | configuring
  | readying
  | requesting_acquisition
  | acquiring
  | requesting_stop
  | stopping
  | disconnecting
  deriving DecidableEq, Repr, Fintype

/-- The events (transition methods) of `VoyisAPIStateMachine`. -/
inductive SMEvent where
  | connect
  | configure
  | ready
  | request_acquisition
  | acquire
  | request_stop
  | stop
  | disconnect
  | reset
  deriving DecidableEq, Repr, Fintype

/-- The state declared with `initial=True` in the source: `idling`. -/
def initial_state : SMState := SMState.idling

/-- The guarded transition table of `VoyisAPIStateMachine`:
`connect = idling.to(connecting)`, ..., and `reset` from every
non-idling state back to `idling`.  `none` models the exception the
statemachine library raises on an illegal transition. -/
def transition (s : SMState) (e : SMEvent) : Option SMState :=
  match e with
  | SMEvent.connect =>
      if s = SMState.idling then some SMState.connecting else none
  | SMEvent.configure =>
      if s = SMState.connecting then some SMState.configuring else none
  | SMEvent.ready =>
      if s = SMState.configuring then some SMState.readying else none
  | SMEvent.request_acquisition =>
      if s = SMState.readying then some SMState.requesting_acquisition else none
  | SMEvent.acquire =>
      if s = SMState.requesting_acquisition then some SMState.acquiring else none
  | SMEvent.request_stop =>
      if s = SMState.acquiring then some SMState.requesting_stop else none
  | SMEvent.stop =>
      if s = SMState.requesting_stop then some SMState.stopping else none
  | SMEvent.disconnect =>
      if s = SMState.stopping then some SMState.disconnecting else none
  | SMEvent.reset =>
      if s = SMState.idling then none else some SMState.idling

/-- `VoyisAPIStateMachine.requires_connection`: true in every state
except `idling` and `disconnecting`. -/
def requires_connection (s : SMState) : Bool :=
  decide (s ≠ SMState.idling ∧ s ≠ SMState.disconnecting)

/-! ## JSON values and `json.dumps` serialization -/

mutual
/-- A JSON value (the values `json.loads`/`json.dumps` work with). -/
inductive Json where
  | str (s : String)
  | num (n : Int)
  | bool (b : Bool)
  | null
  | arr (xs : JsonList)
  | obj (kvs : JsonMembers)
  deriving DecidableEq, Repr

/-- The elements of a JSON array. -/
inductive JsonList where
  | nil
  | cons (hd : Json) (tl : JsonList)
  deriving DecidableEq, Repr

/-- The key/value members of a JSON object, in insertion order. -/
inductive JsonMembers where
  | nil
  | cons (k : String) (v : Json) (tl : JsonMembers)
  deriving DecidableEq, Repr
end

/-- The double-quote character. -/
def qc : Char := Char.ofNat 34

/-- The backslash character. -/
def bsc : Char := Char.ofNat 92

/-- The left-brace character. -/
def lbc : Char := Char.ofNat 123

/-- The right-brace character. -/
def rbc : Char := Char.ofNat 125

/-- JSON string escaping of one character (quote and backslash; the
strings in this development contain no control characters). -/
def escChar (c : Char) : List Char :=
  if c = qc then [bsc, qc] else if c = bsc then [bsc, bsc] else [c]

/-- JSON string escaping. -/
def escapeStr (s : String) : List Char :=
  (s.data.map escChar).flatten

mutual
/-- `json.dumps` with its default separators, as a character list. -/
def serialize : Json → List Char
  | Json.str s => (qc :: escapeStr s) ++ [qc]
  | Json.num n => (toString n).data
  | Json.bool b => if b then ("true").data else ("false").data
  | Json.null => ("null").data
  | Json.arr xs => ('[' :: serializeItems xs) ++ [']']
  | Json.obj kvs => (lbc :: serializeMembers kvs) ++ [rbc]

/-- Array elements joined by `", "`. -/
def serializeItems : JsonList → List Char
  | JsonList.nil => []
  | JsonList.cons x tl =>
    match tl with
    | JsonList.nil => serialize x
    | JsonList.cons _ _ => serialize x ++ (", ").data ++ serializeItems tl

/-- Object members `"key": value` joined by `", "`. -/
def serializeMembers : JsonMembers → List Char
  | JsonMembers.nil => []
  | JsonMembers.cons k v tl =>
    match tl with
    | JsonMembers.nil =>
      ((qc :: escapeStr k) ++ [qc]) ++ (": ").data ++ serialize v
    | JsonMembers.cons _ _ _ =>
      ((qc :: escapeStr k) ++ [qc]) ++ (": ").data ++ serialize v
        ++ (", ").data ++ serializeMembers tl
end

/-- Whether a JSON object has a member with the given key (the
`"message" in data` check for decoded objects). -/
def hasKey (k : String) : JsonMembers → Bool
  | JsonMembers.nil => false
  | JsonMembers.cons k' _ tl => if k' = k then true else hasKey k tl

/-- `"message" in data` on a decoded top-level JSON object. -/
def jsonHasMessage : Json → Bool
  | Json.obj kvs => hasKey "message" kvs
  | _ => false

/-! ## Frame splitting: `API500ClientProtocol.data_received`
(`api500/client.py`)

One socket read's text is split on the literal two-character sequence
right-brace/left-brace and the braces are re-added to the pieces. -/

/-- Whether the two-character separator (right brace followed directly
by left brace) occurs anywhere in the text. -/
def hasBB : List Char → Bool
  | [] => false
  | [_] => false
  | c₁ :: c₂ :: rest =>
    if c₁ = rbc ∧ c₂ = lbc then true else hasBB (c₂ :: rest)

/-- Python's `data.split("}" + "\x7b")`: split at every non-overlapping
occurrence of the separator, scanning left to right. -/
def splitBraces : List Char → List (List Char)
  | [] => [[]]
  | [c] => [[c]]
  | c₁ :: c₂ :: rest =>
    if c₁ = rbc ∧ c₂ = lbc then [] :: splitBraces rest
    else
      match splitBraces (c₂ :: rest) with
      | [] => [[c₁]]
      | p :: ps => (c₁ :: p) :: ps

/-- Re-adding braces to every piece after the first: middle pieces get
both braces back, the final piece only its leading left brace
(the `for idx in range(1, len(objects) - 1)` loop plus the
`objects[-1]` assignment). -/
def rebracketRest : List (List Char) → List (List Char)
  | [] => []
  | o :: os =>
    match os with
    | [] => [lbc :: o]
    | _ :: _ => (lbc :: (o ++ [rbc])) :: rebracketRest os

/-- `data_received(data)`: the list of frame texts handed on to
`process_data` for one read.  With more than one piece the first gets
its right brace back and the rest are re-bracketed; a single piece is
passed through unchanged. -/
def data_received (s : List Char) : List (List Char) :=
  if 1 < (splitBraces s).length then
    match splitBraces s with
    | [] => []
    | first :: rest => (first ++ [rbc]) :: rebracketRest rest
  else splitBraces s

/-- Proof-side characterization (not a source function): the pieces
`split` produces from a frame sequence — the first piece loses its
trailing right brace, middle pieces lose both braces, the final piece
keeps its trailing brace. -/
def stripFirst (t : List Char) : List (List Char) → List (List Char)
  | [] => [t]
  | s :: ss => t.dropLast :: stripFirst s.tail ss

/-- Proof-side characterization (not a source function): a serialized
JSON object usable as a frame — braces at both ends, at least two
characters, and no internal occurrence of the separator (which is what
a string field containing the separator would create). -/
def frameOK (s : List Char) : Prop :=
  hasBB s = false ∧ s.head? = some lbc ∧ s.getLast? = some rbc ∧
    2 ≤ s.length

instance frameOK.instDecidable (s : List Char) : Decidable (frameOK s) := by
  unfold frameOK
  exact inferInstance

/-! ## Command/ack correlator: `VoyisAPI.send_message` (`api.py`) -/

/-- The fields of `AckRsp` used by the correlator. -/
structure Ack where
  accepted : Bool
  nack_error_string : String := ""
  deriving DecidableEq, Repr

/-- `VoyisAPI.send_message(cmd, timeout_s, retries, expect_ack)`.

State threading: `acks` is `self.ack_rsp_list` when the call starts;
`arrivals` is the environment: `arrivals.head?` holds the
acknowledgments the listener thread appends to `ack_rsp_list` during
this attempt's polling window, and `arrivals.tail` is the environment
seen by the recursive retry.  The result is
`(return value, final ack_rsp_list, number of transmissions)`.
The wall-clock polling loop (100 ms resolution up to `timeout_s`) is
abstracted into the per-window arrival list.

Mirrors the source: `retries <= 0` returns `False` before any send;
after the wait, `if len(self.ack_rsp_list) > 0` pops the most recent
acknowledgment (whether or not it arrived in this window) and returns
its `accepted` flag; otherwise it recurses with `retries - 1` and
returns `False`, discarding the recursive call's return value. -/
def send_message : Nat → Bool → List Ack → List (List Ack) →
    Bool × List Ack × Nat
  | 0, _, acks, _ => (false, acks, 0)
  | Nat.succ retries, expect_ack, acks, arrivals =>
    -- `self.loop.run_until_complete(self.client.send_message(...))`:
    -- one transmission happens here.
    if expect_ack = false then
      (true, acks, 1)
    else
      -- the polling loop runs; acks arriving in this window are appended
      let acks2 := acks ++ (arrivals.head?.getD [])
      if acks2 = [] then
        let res := send_message retries true acks2 arrivals.tail
        (false, res.2.1, res.2.2 + 1)
      else
        match acks2.getLast? with
        | some a => (a.accepted, acks2.dropLast, 1)
        | none => (false, [], 1)

/-! ## Orchestrator tick: `VoyisAPI.infinite_loop` (`api.py`)

Each helper routine invoked by the tick (`query_api_version`,
`connect_to_scanner`, ...) issues one or more commands through
`send_message` and reports success as a `Bool`.  The environment
`PhaseEnv` records each helper's success outcome for this tick; the
tick's result records the helper routines it actually invoked (each
entry stands for the commands that helper sends), so "returns without
issuing any command" is `issued = []`. -/

/-- Success outcomes of the helper routines `infinite_loop` may call. -/
structure PhaseEnv where
  query_api_version : Bool
  connect_to_scanner : Bool
  check_connection_status : Bool
  configure_time_source : Bool
  configure_nav : Bool
  set_data_options : Bool
  get_scanner_status : Bool
  perform_system_checks : Bool
  stop_scanning_if_running : Bool
  set_scan_parameters : Bool
  check_laser_is_armed : Bool
  check_temperatures : Bool
  start_scanning : Bool
  stop_scanning : Bool
  disconnect : Bool
  deriving DecidableEq, Repr

/-- Observable outcome of one `infinite_loop` tick: the state machine's
state afterwards, the helper routines invoked (in order), and the two
request flags afterwards. -/
structure LoopResult where
  state : SMState
  issued : List String
  req_acq : Bool
  req_stop : Bool
  deriving DecidableEq, Repr

/-- The second `if`/`elif` chain of `infinite_loop` (from
`if self.state.is_readying and self._request_acquisition:` down to the
`is_disconnecting` branch).  Because the source uses a fresh `if`
there instead of `elif`, this chain also runs on the state left behind
by the first chain within the same tick. -/
def loopPhase2 (env : PhaseEnv) (s : SMState) (ra rs : Bool)
    (acts : List String) : LoopResult :=
  if s = SMState.readying ∧ ra = true then
    ⟨SMState.requesting_acquisition, acts, false, rs⟩
  else if s = SMState.requesting_acquisition then
    if env.start_scanning = false then
      ⟨s, acts ++ ["start_scanning"], ra, rs⟩
    else ⟨SMState.acquiring, acts ++ ["start_scanning"], ra, rs⟩
  else if s = SMState.acquiring then
    if env.get_scanner_status = false then
      ⟨s, acts ++ ["get_scanner_status"], ra, rs⟩
    else if rs = true then
      ⟨SMState.requesting_stop, acts ++ ["get_scanner_status"], ra, false⟩
    else ⟨s, acts ++ ["get_scanner_status"], ra, rs⟩
  else if s = SMState.requesting_stop then
    if env.stop_scanning = false then
      ⟨s, acts ++ ["stop_scanning"], ra, rs⟩
    else ⟨SMState.stopping, acts ++ ["stop_scanning"], ra, rs⟩
  else if s = SMState.stopping then
    ⟨SMState.disconnecting, acts, ra, rs⟩
  else if s = SMState.disconnecting then
    if env.disconnect = false then
      ⟨s, acts ++ ["disconnect"], ra, rs⟩
    else ⟨SMState.idling, acts ++ ["disconnect"], ra, rs⟩
  else ⟨s, acts, ra, rs⟩

/-- `VoyisAPI.infinite_loop`: first the connection guard (`reset` and
return when the client is disconnected while `requires_connection`
holds), then the `is_idling`/`is_connecting`/`is_configuring` chain,
falling through into `loopPhase2`.  Early `return`s in the source are
the branches that do not call `loopPhase2`. -/
def infinite_loop (connected : Bool) (env : PhaseEnv) (s : SMState)
    (ra rs : Bool) : LoopResult :=
  if connected = false ∧ requires_connection s = true then
    -- `self.state.reset(); return`
    ⟨SMState.idling, [], ra, rs⟩
  else if s = SMState.idling then
    -- `self.state.connect()`, then the second chain sees `connecting`
    loopPhase2 env SMState.connecting ra rs []
  else if s = SMState.connecting then
    if env.query_api_version = false then
      ⟨s, ["query_api_version"], ra, rs⟩
    else if env.connect_to_scanner = false then
      ⟨s, ["query_api_version", "connect_to_scanner"], ra, rs⟩
    else if env.check_connection_status = false then
      ⟨s, ["query_api_version", "connect_to_scanner",
           "check_connection_status"], ra, rs⟩
    else
      loopPhase2 env SMState.configuring ra rs
        ["query_api_version", "connect_to_scanner",
         "check_connection_status"]
  else if s = SMState.configuring then
    if env.configure_time_source = false then
      ⟨s, ["configure_time_source"], ra, rs⟩
    else if env.configure_nav = false then
      ⟨s, ["configure_time_source", "configure_nav"], ra, rs⟩
    else if env.set_data_options = false then
      ⟨s, ["configure_time_source", "configure_nav",
           "set_data_options"], ra, rs⟩
    else if env.get_scanner_status = false then
      ⟨s, ["configure_time_source", "configure_nav", "set_data_options",
           "get_scanner_status"], ra, rs⟩
    else if env.perform_system_checks = false then
      ⟨s, ["configure_time_source", "configure_nav", "set_data_options",
           "get_scanner_status", "perform_system_checks"], ra, rs⟩
    -- `stop_scanning_if_running` failure is logged but does not return
    else if env.set_scan_parameters = false then
      ⟨s, ["configure_time_source", "configure_nav", "set_data_options",
           "get_scanner_status", "perform_system_checks",
           "stop_scanning_if_running", "set_scan_parameters"], ra, rs⟩
    else if env.check_laser_is_armed = false then
      ⟨s, ["configure_time_source", "configure_nav", "set_data_options",
           "get_scanner_status", "perform_system_checks",
           "stop_scanning_if_running", "set_scan_parameters",
           "check_laser_is_armed"], ra, rs⟩
    else if env.check_temperatures = false then
      ⟨s, ["configure_time_source", "configure_nav", "set_data_options",
           "get_scanner_status", "perform_system_checks",
           "stop_scanning_if_running", "set_scan_parameters",
           "check_laser_is_armed", "check_temperatures"], ra, rs⟩
    else
      loopPhase2 env SMState.readying ra rs
        ["configure_time_source", "configure_nav", "set_data_options",
         "get_scanner_status", "perform_system_checks",
         "stop_scanning_if_running", "set_scan_parameters",
         "check_laser_is_armed", "check_temperatures"]
  else
    loopPhase2 env s ra rs []

/-! ## Notification store (`messages.py` and `VoyisAPI.process_message`)

Values carried by notifications are modelled as `String` (opaque JSON
scalars); `datetime.datetime.now().timestamp()` is an explicit `Nat`
parameter. -/

/-- `messages.ValueHistory`: parallel lists of values and times. -/
structure ValueHistory where
  values : List String
  times : List Nat
  deriving DecidableEq, Repr

/-- `ValueHistory.__init__(value)`: empty for `None`, else one entry. -/
def ValueHistory.init (value : Option String) (t : Nat) : ValueHistory :=
  match value with
  | none => ⟨[], []⟩
  | some v => ⟨[v], [t]⟩

/-- `ValueHistory.add(value)`. -/
def ValueHistory.add (h : ValueHistory) (v : String) (t : Nat) : ValueHistory :=
  ⟨h.values ++ [v], h.times ++ [t]⟩

/-- `ValueHistory.get()` with the default index `-1`: the last value.
(Python raises `IndexError` on an empty history; the histories built
from notifications are never empty.) -/
def ValueHistory.get? (h : ValueHistory) : Option String :=
  h.values.getLast?

/-- `ValueHistory.size()`. -/
def ValueHistory.size (h : ValueHistory) : Nat :=
  h.values.length

/-- One element of a `ScannerStatusNot` payload (the fields
`ScannerStatus.__init__` reads from the JSON dict). -/
structure StatusElem where
  status_id : Nat
  name : String
  value_type : Nat
  value : String
  status_status : String
  category_id : Nat
  category_name : String
  deriving DecidableEq, Repr

/-- `messages.ScannerStatus`. -/
structure ScannerStatus where
  status_id : Nat
  name : String
  value_type : Nat
  value : ValueHistory
  status_status : ValueHistory
  category_id : Nat
  category_name : String
  deriving DecidableEq, Repr

/-- `ScannerStatus.__init__(json_dict)`. -/
def ScannerStatus.ofElem (e : StatusElem) (t : Nat) : ScannerStatus :=
  ⟨e.status_id, e.name, e.value_type, ValueHistory.init (some e.value) t,
   ValueHistory.init (some e.status_status) t, e.category_id,
   e.category_name⟩

/-- `ScannerStatus.update(other)`: appends `other`'s latest value and
status flag to the histories. -/
def ScannerStatus.update (s o : ScannerStatus) (t : Nat) : ScannerStatus :=
  { s with
    value := s.value.add (o.value.get?.getD "") t,
    status_status := s.status_status.add (o.status_status.get?.getD "") t }

/-- One element of an `APIStatusNot` payload. -/
structure APIStatusElem where
  status_id : Nat
  name : String
  value_type : Nat
  value : String
  deriving DecidableEq, Repr

/-- `messages.APIStatus`. -/
structure APIStatus where
  status_id : Nat
  name : String
  value_type : Nat
  value : ValueHistory
  deriving DecidableEq, Repr

/-- `APIStatus.__init__(json_dict)`. -/
def APIStatus.ofElem (e : APIStatusElem) (t : Nat) : APIStatus :=
  ⟨e.status_id, e.name, e.value_type, ValueHistory.init (some e.value) t⟩

/-- `APIStatus.update(other)`. -/
def APIStatus.update (s o : APIStatus) (t : Nat) : APIStatus :=
  { s with value := s.value.add (o.value.get?.getD "") t }

/-- One element of a `ScannerParametersNot` payload. -/
structure ParamElem where
  parameter_id : Nat
  name : String
  value_type : Nat
  remote_value : String
  local_value : String
  valid_min : Int
  valid_max : Int
  valid_step : Int
  category_id : Nat
  category_name : String
  can_set_when_scanning : Bool
  deriving DecidableEq, Repr

/-- `messages.ScannerParameter`. -/
structure ScannerParameter where
  parameter_id : Nat
  name : String
  value_type : Nat
  remote_value : ValueHistory
  local_value : ValueHistory
  valid_min : Int
  valid_max : Int
  valid_step : Int
  category_id : Nat
  category_name : String
  can_set_when_scanning : Bool
  deriving DecidableEq, Repr

/-- `ScannerParameter.__init__(json_dict)`. -/
def ScannerParameter.ofElem (e : ParamElem) (t : Nat) : ScannerParameter :=
  ⟨e.parameter_id, e.name, e.value_type,
   ValueHistory.init (some e.remote_value) t,
   ValueHistory.init (some e.local_value) t,
   e.valid_min, e.valid_max, e.valid_step, e.category_id,
   e.category_name, e.can_set_when_scanning⟩

/-- `ScannerParameter.update(other)`. -/
def ScannerParameter.update (s o : ScannerParameter) (t : Nat) :
    ScannerParameter :=
  { s with
    remote_value := s.remote_value.add (o.remote_value.get?.getD "") t,
    local_value := s.local_value.add (o.local_value.get?.getD "") t }

/-- One element of an `APIConfigurationNot` payload. -/
structure APIConfigElem where
  parameter_id : Nat
  name : String
  value_type : Nat
  value : String
  valid_min : Int
  valid_max : Int
  valid_step : Int
  deriving DecidableEq, Repr

/-- `messages.APIConfiguration`. -/
structure APIConfiguration where
  parameter_id : Nat
  name : String
  value_type : Nat
  value : ValueHistory
  valid_min : Int
  valid_max : Int
  valid_step : Int
  deriving DecidableEq, Repr

/-- `APIConfiguration.__init__(json_dict)`. -/
def APIConfiguration.ofElem (e : APIConfigElem) (t : Nat) : APIConfiguration :=
  ⟨e.parameter_id, e.name, e.value_type, ValueHistory.init (some e.value) t,
   e.valid_min, e.valid_max, e.valid_step⟩

/-- `APIConfiguration.update(other)` (declared in the source; the
`APIConfigurationNot` branch of `process_message` does not call it). -/
def APIConfiguration.update (s o : APIConfiguration) (t : Nat) :
    APIConfiguration :=
  { s with value := s.value.add (o.value.get?.getD "") t }

/-- `messages.EndpointConfiguration` (also the payload element; it has
no history fields). -/
structure EndpointConfiguration where
  endpoint_id : Nat
  net_enabled : Bool
  net_connection : String
  file_enabled : Bool
  file_name : String
  file_max_bytes : Nat
  deriving DecidableEq, Repr

/-- The dictionary merge pattern of the `APIStatusNot` /
`ScannerStatusNot` / `ScannerParametersNot` branches: existing key →
`entry.update(new)`; absent key → insert the new entry.  Python dicts
are modelled as association lists in insertion order. -/
def dictMerge {κ β : Type} [DecidableEq κ] (key : β → κ) (upd : β → β → β)
    (d : List (κ × β)) (o : β) : List (κ × β) :=
  if (List.lookup (key o) d).isSome then
    d.map (fun kv => if kv.1 = key o then (kv.1, upd kv.2 o) else kv)
  else d ++ [(key o, o)]

/-- Plain dict assignment `d[k] = v` (the `ScannerListNot` /
`APIConfigurationNot` / `EndpointConfigurationNot` branches): existing
key → replace the value; absent key → insert. -/
def dictSet {κ β : Type} [DecidableEq κ] (d : List (κ × β)) (k : κ) (v : β) :
    List (κ × β) :=
  if (List.lookup k d).isSome then
    d.map (fun kv => if kv.1 = k then (kv.1, v) else kv)
  else d ++ [(k, v)]

/-- The store fields of `VoyisAPI` that `process_message` touches.
`ip` is `self.ip` (used by the `ScannerListNot` branch). -/
structure Store where
  ip : String
  last_connection_state : Int
  api_status_not_dict : List (Nat × APIStatus)
  scanner_list_not_dict : List (String × Int)
  scanner_parameters_not_dict : List (Nat × ScannerParameter)
  scanner_status_not_dict : List (Nat × ScannerStatus)
  api_configuration_not_dict : List (Nat × APIConfiguration)
  endpoint_configuration_not_dict : List (Nat × EndpointConfiguration)
  api_version_not_list : List String
  api_status_list : List String
  connection_change_not_list : List String
  leak_detection_not_list : List String
  correction_model_load_not_list : List String
  correction_model_list_not_list : List String
  pending_cmd_status_not_list : List String
  ack_rsp_list : List Ack
  deriving DecidableEq, Repr

/-- The store as `VoyisAPI.__init__` leaves it. -/
def Store.start (ip : String) : Store :=
  ⟨ip, 0, [], [], [], [], [], [], [], [], [], [], [], [], [], []⟩

/-- The parsed payload a `process_message` branch extracts from the
message dict; a branch finding the wrong shape models the constructor
raising (caught and logged as a warning). -/
inductive PayloadVal where
  | single (s : String)
  | apiStatusElems (l : List APIStatusElem)
  | scannerList (l : List (String × Int))
  | statusElems (l : List StatusElem)
  | paramElems (l : List ParamElem)
  | apiConfigElems (l : List APIConfigElem)
  | endpointElems (l : List EndpointConfiguration)
  | ack (a : Ack)
  deriving DecidableEq, Repr

/-- The warning every `except` branch of `process_message` logs. -/
def parseWarn : String := "Could not parse ScannerStatus"

/-- The `message` values `process_message` dispatches on (the `elif`
chain in source order). -/
def knownMessageTags : List String :=
  ["ApiVersionNot", "APIStatus", "APIStatusNot", "ScannerListNot",
   "ConnectionChangeNot", "ScannerStatus", "ScannerStatusNot",
   "LeakDetectionNot", "ScannerParameter", "ScannerParametersNot",
   "APIConfiguration", "APIConfigurationNot", "EndpointConfiguration",
   "EndpointConfigurationNot", "CorrectionModelLoadNot",
   "CorrectionModelListNot", "PendingCmdStatusNot", "AckRsp"]

/-- `VoyisAPI.process_message(data)`: dispatch on `data["message"]`.
Returns the updated store and the log records emitted.  The YAML
snapshot files written by some branches are I/O outside the store and
are not modelled.  The `ScannerStatus`, `ScannerParameter`,
`APIConfiguration` and `EndpointConfiguration` (singular) branches
append to attributes `__init__` never creates
(`self.scanner_status_list` etc.), so they always raise
`AttributeError`, caught and logged as the warning. -/
def process_message (tag : String) (pl : Option PayloadVal) (t : Nat)
    (st : Store) : Store × List String :=
  if tag = "ApiVersionNot" then
    match pl with
    | some (PayloadVal.single s) =>
      ({ st with api_version_not_list := st.api_version_not_list ++ [s] }, [])
    | _ => (st, [parseWarn])
  else if tag = "APIStatus" then
    match pl with
    | some (PayloadVal.single s) =>
      ({ st with api_status_list := st.api_status_list ++ [s] }, [])
    | _ => (st, [parseWarn])
  else if tag = "APIStatusNot" then
    match pl with
    | some (PayloadVal.apiStatusElems l) =>
      let d := l.foldl
        (fun d e =>
          dictMerge APIStatus.status_id (fun s o => s.update o t) d
            (APIStatus.ofElem e t))
        st.api_status_not_dict
      ({ st with api_status_not_dict := d }, [])
    | _ => (st, [parseWarn])
  else if tag = "ScannerListNot" then
    match pl with
    | some (PayloadVal.scannerList l) =>
      -- the dict is updated first; `int(safe_get(dict, self.ip))` then
      -- raises (caught, logged) when `self.ip` is not a key
      let d := l.foldl (fun d kv => dictSet d kv.1 kv.2)
        st.scanner_list_not_dict
      match List.lookup st.ip d with
      | some v =>
        ({ st with scanner_list_not_dict := d,
                   last_connection_state := v }, [])
      | none => ({ st with scanner_list_not_dict := d }, [parseWarn])
    | _ => (st, [parseWarn])
  else if tag = "ConnectionChangeNot" then
    match pl with
    | some (PayloadVal.single s) =>
      let l2 := st.connection_change_not_list ++ [s]
      ({ st with connection_change_not_list := l2 }, [])
    | _ => (st, [parseWarn])
  else if tag = "ScannerStatus" then
    -- `self.scanner_status_list` does not exist: AttributeError → warn
    (st, [parseWarn])
  else if tag = "ScannerStatusNot" then
    match pl with
    | some (PayloadVal.statusElems l) =>
      let d := l.foldl
        (fun d e =>
          dictMerge ScannerStatus.status_id (fun s o => s.update o t) d
            (ScannerStatus.ofElem e t))
        st.scanner_status_not_dict
      ({ st with scanner_status_not_dict := d }, [])
    | _ => (st, [parseWarn])
  else if tag = "LeakDetectionNot" then
    match pl with
    | some (PayloadVal.single s) =>
      let l2 := st.leak_detection_not_list ++ [s]
      ({ st with leak_detection_not_list := l2 }, [])
    | _ => (st, [parseWarn])
  else if tag = "ScannerParameter" then
    -- `self.scanner_parameter_list` does not exist: AttributeError → warn
    (st, [parseWarn])
  else if tag = "ScannerParametersNot" then
    match pl with
    | some (PayloadVal.paramElems l) =>
      let d := l.foldl
        (fun d e =>
          dictMerge ScannerParameter.parameter_id
            (fun s o => s.update o t) d (ScannerParameter.ofElem e t))
        st.scanner_parameters_not_dict
      ({ st with scanner_parameters_not_dict := d }, [])
    | _ => (st, [parseWarn])
  else if tag = "APIConfiguration" then
    -- `self.api_configuration_list` does not exist: AttributeError → warn
    (st, [parseWarn])
  else if tag = "APIConfigurationNot" then
    match pl with
    | some (PayloadVal.apiConfigElems l) =>
      -- plain dict assignment: the existing entry is replaced, its
      -- history discarded (no call to `APIConfiguration.update`)
      let d := l.foldl
        (fun d e => dictSet d e.parameter_id (APIConfiguration.ofElem e t))
        st.api_configuration_not_dict
      ({ st with api_configuration_not_dict := d }, [])
    | _ => (st, [parseWarn])
  else if tag = "EndpointConfiguration" then
    -- `self.endpoint_configuration_list` does not exist → warn
    (st, [parseWarn])
  else if tag = "EndpointConfigurationNot" then
    match pl with
    | some (PayloadVal.endpointElems l) =>
      let d := l.foldl (fun d e => dictSet d e.endpoint_id e)
        st.endpoint_configuration_not_dict
      ({ st with endpoint_configuration_not_dict := d }, [])
    | _ => (st, [parseWarn])
  else if tag = "CorrectionModelLoadNot" then
    match pl with
    | some (PayloadVal.single s) =>
      let l2 := st.correction_model_load_not_list ++ [s]
      ({ st with correction_model_load_not_list := l2 }, [])
    | _ => (st, [parseWarn])
  else if tag = "CorrectionModelListNot" then
    match pl with
    | some (PayloadVal.single s) =>
      let l2 := st.correction_model_list_not_list ++ [s]
      ({ st with correction_model_list_not_list := l2 }, [])
    | _ => (st, [parseWarn])
  else if tag = "PendingCmdStatusNot" then
    match pl with
    | some (PayloadVal.single s) =>
      let l2 := st.pending_cmd_status_not_list ++ [s]
      ({ st with pending_cmd_status_not_list := l2 }, [])
    | _ => (st, [parseWarn])
  else if tag = "AckRsp" then
    match pl with
    | some (PayloadVal.ack a) =>
      ({ st with ack_rsp_list := st.ack_rsp_list ++ [a] }, [])
    | _ => (st, [parseWarn])
  else
    -- unknown `message` value: the `elif` chain has no `else` branch,
    -- so the message is dropped silently
    (st, [])

/-! ## Receive path: `API500ClientProtocol.process_data` and
`API500Client.connected` (`api500/client.py`) -/

/-- `process_data(data)`: `parsed` is the `json.loads` outcome (`none`
models `JSONDecodeError`).  Returns the updated `self.received` list
and the log records emitted.  Objects without a `message` member are
dropped with no log; decode failures log errors. -/
def process_data (parsed : Option Json) (received : List Json) :
    List Json × List String :=
  match parsed with
  | none => (received, ["ERROR: JSONDecodeError"])
  | some data =>
    if jsonHasMessage data then (received ++ [data], [])
    else (received, [])

/-- The protocol object's fields relevant to the connection flag. -/
structure API500ClientProtocol where
  connected : Bool
  received : List Json
  deriving Repr

/-- `API500Client`: `protocol` is `None` until `connect()` builds it. -/
structure API500Client where
  ip : String
  port : Nat
  protocol : Option API500ClientProtocol
  deriving Repr

/-- The `API500Client.connected` property. -/
def API500Client.connected (c : API500Client) : Bool :=
  match c.protocol with
  | none => false
  | some p => p.connected

/-! ## Outbound command serialization (`api500/command.py`,
`messages.API500Message`) -/

/-- `messages.API500Message` as used for outbound commands. -/
structure API500Message where
  message : String
  payload : Option Json := none
  deriving DecidableEq, Repr

/-- `API500Message.to_str()`: `json.dumps` of `{"message": ...}` with
the `payload` member present exactly when `self.payload` is set. -/
def API500Message.to_str (m : API500Message) : List Char :=
  match m.payload with
  | none =>
    serialize (Json.obj
      (JsonMembers.cons "message" (Json.str m.message) JsonMembers.nil))
  | some p =>
    serialize (Json.obj
      (JsonMembers.cons "message" (Json.str m.message)
        (JsonMembers.cons "payload" p JsonMembers.nil)))

/-- `api500.command.API500Command`. -/
structure API500Command where
  command : String
  payload : Option Json := none
  needs_payload : Bool := false
  timeout_s : Nat := 0
  expected_response : List String := ["AckRsp"]
  deriving DecidableEq, Repr

/-- `API500Command.to_str()`: raises (`Except.error`) when
`needs_payload` holds but no payload is set; otherwise serializes a
fresh `API500Message` whose payload is set only when `needs_payload`
holds and a payload is present. -/
def API500Command.to_str (c : API500Command) : Except String (List Char) :=
  if c.needs_payload = true ∧ c.payload = none then
    Except.error ("Command " ++ c.command ++ " needs a payload")
  else
    Except.ok (API500Message.to_str
      (API500Message.mk c.command
        (if c.needs_payload = true then c.payload else none)))

end Voyis

/-- **C4.** For the 9-state lifecycle machine, exactly the enumerated
transitions (`idling→connecting` on `connect` through
`stopping→disconnecting` on `disconnect`, plus `reset` from every
non-idling state to `idling`) are legal; every other (state, event)
pair is rejected (`none`), and `idling` is the unique initial state. -/
theorem C4_state_machine_legality :
    Voyis.initial_state = Voyis.SMState.idling ∧
    (∀ s e s', Voyis.transition s e = some s' ↔
      ((s = Voyis.SMState.idling ∧ e = Voyis.SMEvent.connect ∧
          s' = Voyis.SMState.connecting) ∨
       (s = Voyis.SMState.connecting ∧ e = Voyis.SMEvent.configure ∧
          s' = Voyis.SMState.configuring) ∨
       (s = Voyis.SMState.configuring ∧ e = Voyis.SMEvent.ready ∧
          s' = Voyis.SMState.readying) ∨
       (s = Voyis.SMState.readying ∧ e = Voyis.SMEvent.request_acquisition ∧
          s' = Voyis.SMState.requesting_acquisition) ∨
       (s = Voyis.SMState.requesting_acquisition ∧ e = Voyis.SMEvent.acquire ∧
          s' = Voyis.SMState.acquiring) ∨
       (s = Voyis.SMState.acquiring ∧ e = Voyis.SMEvent.request_stop ∧
          s' = Voyis.SMState.requesting_stop) ∨
       (s = Voyis.SMState.requesting_stop ∧ e = Voyis.SMEvent.stop ∧
          s' = Voyis.SMState.stopping) ∨
       (s = Voyis.SMState.stopping ∧ e = Voyis.SMEvent.disconnect ∧
          s' = Voyis.SMState.disconnecting) ∨
       (s ≠ Voyis.SMState.idling ∧ e = Voyis.SMEvent.reset ∧
          s' = Voyis.SMState.idling))) := by
  constructor
  · rfl
  · intro s e
    cases s <;> cases e <;> decide

/-- **C1 (counterexample).** The claim predicts that with retry budget 2
and no acknowledgment ever arriving the command is transmitted
`retries + 1 = 3` times; the code transmits it only 2 times (the
`retries <= 0` guard returns `False` before the would-be last send). -/
theorem C1_counterexample :
    Voyis.send_message 2 true [] [[], [], []] = (false, [], 2) ∧ 2 ≠ 2 + 1 := by
  decide

/-- **C1 (amended).** For every command whose acknowledgment never
arrives (no stale acknowledgment pending, every polling window empty),
`send_message` with `expect_ack = true` transmits the command exactly
`retries` times in total (the first send plus `retries - 1` retries)
and returns failure (`false`); with a zero budget it sends nothing. -/
theorem C1_amended :
    ∀ (r : Nat) (arrivals : List (List Voyis.Ack)),
    (∀ a ∈ arrivals, a = []) →
    Voyis.send_message r true [] arrivals = (false, [], r) := by
  intro r
  induction r with
  | zero => intro arrivals _; rfl
  | succ n ih =>
    intro arrivals h
    have hhead : arrivals.head?.getD [] = [] := by
      cases arrivals with
      | nil => rfl
      | cons a t => exact h a (List.mem_cons_self a t)
    have htail : ∀ a ∈ arrivals.tail, a = [] := fun a ha =>
      h a (List.mem_of_mem_tail ha)
    have hstep : Voyis.send_message (n + 1) true [] arrivals
        = (false, (Voyis.send_message n true [] arrivals.tail).2.1,
           (Voyis.send_message n true [] arrivals.tail).2.2 + 1) := by
      simp [Voyis.send_message, hhead]
    rw [hstep, ih arrivals.tail htail]

/-- Witness for C1 (amended) at budget 2 with two empty windows. -/
theorem C1_amended_witness :
    Voyis.send_message 2 true [] [[], []] = (false, [], 2) :=
  C1_amended 2 [[], []] (by decide)

/-- **C3 (counterexample).** First conjunct: a stale acknowledgment
(`accepted = true`) is already pending before the send and none arrives
during the window, yet the call consumes the stale acknowledgment and
returns its flag instead of retrying.  Second conjunct: the
acknowledgment arrives during the retry attempt's window, but the
original call returns `false`, not the acknowledgment's flag. -/
theorem C3_counterexample :
    Voyis.send_message 1 true [Voyis.Ack.mk true ""] [[]] = (true, [], 1) ∧
    Voyis.send_message 2 true [] [[], [Voyis.Ack.mk true ""]] = (false, [], 2) := by
  decide

/-- **C3 (amended).** `send_message` records the acknowledgment count
before the send and polls until it grows by one or the timeout elapses;
after the wait it pops the most recent acknowledgment, if any is
present, and returns that acknowledgment's accepted flag.  When exactly
one acknowledgment arrives during the first attempt's window this is
the newly arrived one (first conjunct); when none arrives but stale
acknowledgments were already pending, the most recent stale one is
consumed instead (second conjunct).  A retry's result is discarded. -/
theorem C3_amended :
    (∀ (r : Nat) (acks : List Voyis.Ack) (a : Voyis.Ack)
        (arr : List (List Voyis.Ack)),
      Voyis.send_message (r + 1) true acks ([a] :: arr)
        = (a.accepted, acks, 1)) ∧
    (∀ (r : Nat) (acks : List Voyis.Ack) (a : Voyis.Ack)
        (arr : List (List Voyis.Ack)),
      acks.getLast? = some a →
      Voyis.send_message (r + 1) true acks ([] :: arr)
        = (a.accepted, acks.dropLast, 1)) := by
  constructor
  · intro r acks a arr
    simp [Voyis.send_message]
  · intro r acks a arr h
    have hne : acks ≠ [] := by
      intro h0
      rw [h0] at h
      simp at h
    simp [Voyis.send_message, hne, h]

/-- Witness for C3 (amended): one fresh acknowledgment is consumed and
returned; a pending stale acknowledgment is popped on timeout. -/
theorem C3_amended_witness :
    Voyis.send_message 1 true [] [[Voyis.Ack.mk true ""]] = (true, [], 1) ∧
    Voyis.send_message 1 true [Voyis.Ack.mk false ""] [[]] = (false, [], 1) := by
  constructor
  · exact C3_amended.1 0 [] (Voyis.Ack.mk true "") []
  · exact C3_amended.2 0 [Voyis.Ack.mk false ""] (Voyis.Ack.mk false "") []
      (by decide)

/-- **C8 (counterexample).** With retry budget 0 and
`expect_ack = false` the call returns `False` without transmitting at
all, not success after one send as the claim states for every budget. -/
theorem C8_counterexample :
    Voyis.send_message 0 false [] [] = (false, [], 0) ∧
    (false, ([] : List Voyis.Ack), 0) ≠ (true, [], 1) := by
  decide

/-- **C8 (amended).** For every positive retry budget, calling
`send_message` with `expect_ack = false` returns success (`true`)
immediately after the single transmission, waiting for and consuming
no acknowledgment. -/
theorem C8_amended :
    ∀ (r : Nat) (acks : List Voyis.Ack) (arrivals : List (List Voyis.Ack)),
    Voyis.send_message (r + 1) false acks arrivals = (true, acks, 1) := by
  intro r acks arrivals
  simp [Voyis.send_message]

/-- **C5.** `requires_connection` is true in every lifecycle state
except `idling` and `disconnecting`, and every `infinite_loop` tick
entered with the transport disconnected while `requires_connection`
holds (in particular from `acquiring`, see the witness) resets the
state machine directly to `idling` and returns without invoking any
command-issuing helper and without touching the request flags. -/
theorem C5_disconnect_forces_reset :
    (∀ s : Voyis.SMState, Voyis.requires_connection s = true ↔
      (s ≠ Voyis.SMState.idling ∧ s ≠ Voyis.SMState.disconnecting)) ∧
    (∀ (env : Voyis.PhaseEnv) (s : Voyis.SMState) (ra rs : Bool),
      Voyis.requires_connection s = true →
      Voyis.infinite_loop false env s ra rs
        = ⟨Voyis.SMState.idling, [], ra, rs⟩) := by
  constructor
  · decide
  · intro env s ra rs h
    unfold Voyis.infinite_loop
    rw [if_pos ⟨rfl, h⟩]

/-- Witness for C5 at state `acquiring` with an all-succeeding
environment: the tick still issues nothing and resets to `idling`. -/
theorem C5_disconnect_forces_reset_witness :
    Voyis.infinite_loop false
      (Voyis.PhaseEnv.mk true true true true true true true true true
        true true true true true true)
      Voyis.SMState.acquiring false false
      = ⟨Voyis.SMState.idling, [], false, false⟩ :=
  C5_disconnect_forces_reset.2 _ Voyis.SMState.acquiring false false
    (by decide)

/-! ### Association-list helper lemmas for the store dictionaries -/

/-- Unfolding `List.lookup` one cons at a time, with propositional
equality instead of `==`. -/
theorem lookup_cons {κ β : Type} [DecidableEq κ] (k a : κ) (b : β)
    (rest : List (κ × β)) :
    List.lookup k ((a, b) :: rest)
      = if k = a then some b else List.lookup k rest := by
  by_cases h : k = a
  · subst h
    simp [List.lookup]
  · have hb : (k == a) = false := by
      simp [h]
    simp [List.lookup, hb, h]

/-- Looking up the rewritten key after a replace-at-key map. -/
theorem lookup_map_set {κ β : Type} [DecidableEq κ]
    (d : List (κ × β)) (k : κ) (f : β → β) :
    List.lookup k (d.map (fun kv => if kv.1 = k then (kv.1, f kv.2) else kv))
      = Option.map f (List.lookup k d) := by
  induction d with
  | nil => rfl
  | cons kv rest ih =>
    obtain ⟨a, b⟩ := kv
    by_cases h : a = k
    · subst h
      simp [lookup_cons, ih]
    · have h2 : ¬k = a := fun hh => h hh.symm
      simp [lookup_cons, h, h2, ih]

/-- Other keys are untouched by a replace-at-key map. -/
theorem lookup_map_set_ne {κ β : Type} [DecidableEq κ]
    (d : List (κ × β)) (k k' : κ) (f : β → β) (hne : k' ≠ k) :
    List.lookup k' (d.map (fun kv => if kv.1 = k then (kv.1, f kv.2) else kv))
      = List.lookup k' d := by
  induction d with
  | nil => rfl
  | cons kv rest ih =>
    obtain ⟨a, b⟩ := kv
    by_cases h : a = k
    · have h2 : ¬k' = a := fun hh => hne (hh.trans h)
      simp [lookup_cons, h, h2, hne, ih]
    · by_cases h3 : k' = a
      · simp [lookup_cons, h, h3]
      · simp [lookup_cons, h, h3, ih]

/-- Lookup distributes over append when the key misses the front. -/
theorem lookup_append_of_none {κ β : Type} [DecidableEq κ]
    (d₁ d₂ : List (κ × β)) (k : κ) (h : List.lookup k d₁ = none) :
    List.lookup k (d₁ ++ d₂) = List.lookup k d₂ := by
  induction d₁ with
  | nil => rfl
  | cons kv rest ih =>
    obtain ⟨a, b⟩ := kv
    by_cases h3 : k = a
    · rw [lookup_cons, if_pos h3] at h
      exact absurd h (by simp)
    · rw [lookup_cons, if_neg h3] at h
      rw [List.cons_append, lookup_cons, if_neg h3]
      exact ih h

/-- Lookup ignores the appended tail when the key hits the front. -/
theorem lookup_append_of_some {κ β : Type} [DecidableEq κ]
    (d₁ d₂ : List (κ × β)) (k : κ) (v : β)
    (h : List.lookup k d₁ = some v) :
    List.lookup k (d₁ ++ d₂) = some v := by
  induction d₁ with
  | nil => simp [List.lookup] at h
  | cons kv rest ih =>
    obtain ⟨a, b⟩ := kv
    by_cases h3 : k = a
    · rw [lookup_cons, if_pos h3] at h
      rw [List.cons_append, lookup_cons, if_pos h3]
      exact h
    · rw [lookup_cons, if_neg h3] at h
      rw [List.cons_append, lookup_cons, if_neg h3]
      exact ih h

/-- `dictMerge` inserts a fresh entry for an absent key. -/
theorem dictMerge_lookup_of_none {κ β : Type} [DecidableEq κ]
    (key : β → κ) (upd : β → β → β) (d : List (κ × β)) (o : β)
    (h : List.lookup (key o) d = none) :
    List.lookup (key o) (Voyis.dictMerge key upd d o) = some o := by
  unfold Voyis.dictMerge
  rw [h]
  simp only [Option.isSome_none, Bool.false_eq_true, if_false]
  rw [lookup_append_of_none d _ _ h]
  simp [List.lookup]

/-- `dictMerge` updates the existing entry for a present key. -/
theorem dictMerge_lookup_of_some {κ β : Type} [DecidableEq κ]
    (key : β → κ) (upd : β → β → β) (d : List (κ × β)) (o : β) (s : β)
    (h : List.lookup (key o) d = some s) :
    List.lookup (key o) (Voyis.dictMerge key upd d o) = some (upd s o) := by
  unfold Voyis.dictMerge
  rw [h]
  simp only [Option.isSome_some, if_true]
  rw [lookup_map_set d (key o) (fun b => upd b o), h]
  rfl

/-- `dictMerge` never removes a key. -/
theorem dictMerge_preserves {κ β : Type} [DecidableEq κ]
    (key : β → κ) (upd : β → β → β) (d : List (κ × β)) (o : β) (k : κ)
    (h : (List.lookup k d).isSome = true) :
    (List.lookup k (Voyis.dictMerge key upd d o)).isSome = true := by
  unfold Voyis.dictMerge
  cases hs : List.lookup (key o) d with
  | some s =>
    simp only [Option.isSome_some, if_true]
    by_cases hk : k = key o
    · subst hk
      rw [lookup_map_set d (key o) (fun b => upd b o), hs]
      rfl
    · rw [lookup_map_set_ne d (key o) k (fun b => upd b o) hk]
      exact h
  | none =>
    simp only [Option.isSome_none, Bool.false_eq_true, if_false]
    obtain ⟨v, hv⟩ := Option.isSome_iff_exists.mp h
    rw [lookup_append_of_some d _ k v hv]
    rfl

/-- `dictSet` makes the assigned key map to the assigned value. -/
theorem dictSet_lookup_self {κ β : Type} [DecidableEq κ]
    (d : List (κ × β)) (k : κ) (v : β) :
    List.lookup k (Voyis.dictSet d k v) = some v := by
  unfold Voyis.dictSet
  cases hs : List.lookup k d with
  | some s =>
    simp only [Option.isSome_some, if_true]
    rw [lookup_map_set d k (fun _ => v), hs]
    rfl
  | none =>
    simp only [Option.isSome_none, Bool.false_eq_true, if_false]
    rw [lookup_append_of_none d _ _ hs]
    simp [lookup_cons]

/-- Folding scanner-status merges over a payload never removes keys. -/
theorem foldMerge_preserves (es : List Voyis.StatusElem) (t : Nat) :
    ∀ (d : List (Nat × Voyis.ScannerStatus)) (k : Nat),
    (List.lookup k d).isSome = true →
    (List.lookup k
      (es.foldl
        (fun d e =>
          Voyis.dictMerge Voyis.ScannerStatus.status_id
            (fun s o => s.update o t) d (Voyis.ScannerStatus.ofElem e t))
        d)).isSome = true := by
  induction es with
  | nil => intro d k h; exact h
  | cons e rest ih =>
    intro d k h
    exact ih _ k (dictMerge_preserves _ _ d _ k h)

/-- **C6 (counterexample).** `APIConfigurationNot` is a table-valued
notification, but applying the same singleton notification twice leaves
the key with a single-entry history (the entry is replaced wholesale by
plain dict assignment), not the two history entries the claim requires
for every table-valued notification. -/
theorem C6_counterexample :
    (List.lookup 7
      ((Voyis.process_message "APIConfigurationNot"
          (some (Voyis.PayloadVal.apiConfigElems
            [Voyis.APIConfigElem.mk 7 "p" 0 "v1" 0 0 0])) 1
          ((Voyis.process_message "APIConfigurationNot"
              (some (Voyis.PayloadVal.apiConfigElems
                [Voyis.APIConfigElem.mk 7 "p" 0 "v1" 0 0 0])) 0
              (Voyis.Store.start "10.0.0.1")).1)).1).api_configuration_not_dict).map
        (fun c => c.value.size) = some 1 ∧ (1 : Nat) ≠ 2 := by
  decide

/-- **C6 (amended).** For the history-merging table notifications
(`ScannerStatusNot`, and identically `APIStatusNot` /
`ScannerParametersNot`): an existing key gets the new value appended to
its history and the current value (`history.last()`) equals the latest
applied value; an absent key is inserted with exactly one history
entry; no apply ever removes a key.  For `APIConfigurationNot` (and
`EndpointConfigurationNot`) the existing entry is instead replaced
wholesale, so a repeated apply leaves one history entry (current value
still the latest applied value). -/
theorem C6_amended :
    (∀ (st : Voyis.Store) (e : Voyis.StatusElem) (t : Nat),
      List.lookup e.status_id st.scanner_status_not_dict = none →
      List.lookup e.status_id
          ((Voyis.process_message "ScannerStatusNot"
              (some (Voyis.PayloadVal.statusElems [e])) t
              st).1).scanner_status_not_dict
        = some (Voyis.ScannerStatus.ofElem e t) ∧
      (Voyis.ScannerStatus.ofElem e t).value.values = [e.value] ∧
      (Voyis.ScannerStatus.ofElem e t).value.get? = some e.value) ∧
    (∀ (st : Voyis.Store) (e : Voyis.StatusElem) (t : Nat)
        (s₀ : Voyis.ScannerStatus),
      List.lookup e.status_id st.scanner_status_not_dict = some s₀ →
      List.lookup e.status_id
          ((Voyis.process_message "ScannerStatusNot"
              (some (Voyis.PayloadVal.statusElems [e])) t
              st).1).scanner_status_not_dict
        = some (s₀.update (Voyis.ScannerStatus.ofElem e t) t) ∧
      (s₀.update (Voyis.ScannerStatus.ofElem e t) t).value.values
        = s₀.value.values ++ [e.value] ∧
      (s₀.update (Voyis.ScannerStatus.ofElem e t) t).value.get?
        = some e.value) ∧
    (∀ (st : Voyis.Store) (es : List Voyis.StatusElem) (t : Nat) (k : Nat),
      (List.lookup k st.scanner_status_not_dict).isSome = true →
      (List.lookup k
          ((Voyis.process_message "ScannerStatusNot"
              (some (Voyis.PayloadVal.statusElems es)) t
              st).1).scanner_status_not_dict).isSome = true) ∧
    (∀ (st : Voyis.Store) (e : Voyis.APIConfigElem) (t₀ t₁ : Nat),
      List.lookup e.parameter_id
          ((Voyis.process_message "APIConfigurationNot"
              (some (Voyis.PayloadVal.apiConfigElems [e])) t₁
              ((Voyis.process_message "APIConfigurationNot"
                  (some (Voyis.PayloadVal.apiConfigElems [e])) t₀
                  st).1)).1).api_configuration_not_dict
        = some (Voyis.APIConfiguration.ofElem e t₁) ∧
      (Voyis.APIConfiguration.ofElem e t₁).value.values = [e.value]) := by
  refine ⟨?_, ?_, ?_, ?_⟩
  · intro st e t h
    have hred : ((Voyis.process_message "ScannerStatusNot"
        (some (Voyis.PayloadVal.statusElems [e])) t
        st).1).scanner_status_not_dict
        = Voyis.dictMerge Voyis.ScannerStatus.status_id
            (fun s o => s.update o t) st.scanner_status_not_dict
            (Voyis.ScannerStatus.ofElem e t) := rfl
    rw [hred]
    exact ⟨dictMerge_lookup_of_none Voyis.ScannerStatus.status_id
      (fun s o => s.update o t) st.scanner_status_not_dict
      (Voyis.ScannerStatus.ofElem e t) h, rfl, rfl⟩
  · intro st e t s₀ h
    have hred : ((Voyis.process_message "ScannerStatusNot"
        (some (Voyis.PayloadVal.statusElems [e])) t
        st).1).scanner_status_not_dict
        = Voyis.dictMerge Voyis.ScannerStatus.status_id
            (fun s o => s.update o t) st.scanner_status_not_dict
            (Voyis.ScannerStatus.ofElem e t) := rfl
    rw [hred]
    refine ⟨dictMerge_lookup_of_some Voyis.ScannerStatus.status_id
      (fun s o => s.update o t) st.scanner_status_not_dict
      (Voyis.ScannerStatus.ofElem e t) s₀ h, rfl, ?_⟩
    show (s₀.value.values ++ [e.value]).getLast? = some e.value
    exact List.getLast?_concat _
  · intro st es t k h
    have hred : ((Voyis.process_message "ScannerStatusNot"
        (some (Voyis.PayloadVal.statusElems es)) t
        st).1).scanner_status_not_dict
        = es.foldl
            (fun d e =>
              Voyis.dictMerge Voyis.ScannerStatus.status_id
                (fun s o => s.update o t) d (Voyis.ScannerStatus.ofElem e t))
            st.scanner_status_not_dict := rfl
    rw [hred]
    exact foldMerge_preserves es t _ k h
  · intro st e t₀ t₁
    have hred : ((Voyis.process_message "APIConfigurationNot"
        (some (Voyis.PayloadVal.apiConfigElems [e])) t₁
        ((Voyis.process_message "APIConfigurationNot"
            (some (Voyis.PayloadVal.apiConfigElems [e])) t₀
            st).1)).1).api_configuration_not_dict
        = Voyis.dictSet
            ((Voyis.process_message "APIConfigurationNot"
                (some (Voyis.PayloadVal.apiConfigElems [e])) t₀
                st).1).api_configuration_not_dict
            e.parameter_id (Voyis.APIConfiguration.ofElem e t₁) := rfl
    rw [hred]
    exact ⟨dictSet_lookup_self _ _ _, rfl⟩

/-- Witness for C6 (amended): inserting a fresh scanner status creates
a one-entry history whose current value is the inserted value, and a
second apply of the same element appends a second entry with the
current value unchanged. -/
theorem C6_amended_witness :
    (List.lookup 3
      ((Voyis.process_message "ScannerStatusNot"
          (some (Voyis.PayloadVal.statusElems
            [Voyis.StatusElem.mk 3 "laser" 0 "ready" "ok" 1 "cat"])) 9
          (Voyis.Store.start "10.0.0.2")).1).scanner_status_not_dict
      = some (Voyis.ScannerStatus.ofElem
          (Voyis.StatusElem.mk 3 "laser" 0 "ready" "ok" 1 "cat") 9)) ∧
    (Voyis.ScannerStatus.ofElem
        (Voyis.StatusElem.mk 3 "laser" 0 "ready" "ok" 1 "cat") 9).value.values
      = ["ready"] ∧
    ((Voyis.ScannerStatus.ofElem
        (Voyis.StatusElem.mk 3 "laser" 0 "ready" "ok" 1 "cat") 9).update
      (Voyis.ScannerStatus.ofElem
        (Voyis.StatusElem.mk 3 "laser" 0 "ready" "ok" 1 "cat") 10) 10).value.get?
      = some "ready" := by
  have h1 := C6_amended.1 (Voyis.Store.start "10.0.0.2")
    (Voyis.StatusElem.mk 3 "laser" 0 "ready" "ok" 1 "cat") 9 rfl
  have h2 := C6_amended.2.1
    ((Voyis.process_message "ScannerStatusNot"
        (some (Voyis.PayloadVal.statusElems
          [Voyis.StatusElem.mk 3 "laser" 0 "ready" "ok" 1 "cat"])) 9
        (Voyis.Store.start "10.0.0.2")).1)
    (Voyis.StatusElem.mk 3 "laser" 0 "ready" "ok" 1 "cat") 10
    (Voyis.ScannerStatus.ofElem
      (Voyis.StatusElem.mk 3 "laser" 0 "ready" "ok" 1 "cat") 9) h1.1
  exact ⟨h1.1, h1.2.1, h2.2.2⟩

/-- **C7 (counterexample).** A decoded object whose `message` value
names no known kind is dropped by `process_message` with no logged
warning (the `elif` chain has no `else`), and an object lacking a
`message` member is dropped silently by `process_data`; both contradict
"every such drop produces a logged warning". -/
theorem C7_counterexample :
    Voyis.process_message "BogusNot" none 0 (Voyis.Store.start "ip0")
      = (Voyis.Store.start "ip0", []) ∧
    Voyis.process_data
      (some (Voyis.Json.obj (Voyis.JsonMembers.cons "payload"
        Voyis.Json.null Voyis.JsonMembers.nil))) []
      = ([], []) := by
  constructor
  · rfl
  · rfl

/-- **C7 (amended).** An object whose `message` value is unknown is
dropped by `process_message` without altering any store state and
without any log record; an object lacking a `message` member is dropped
silently by `process_data`; only JSON decode failures are logged (as
errors). -/
theorem C7_amended :
    (∀ (st : Voyis.Store) (tag : String) (pl : Option Voyis.PayloadVal)
        (t : Nat),
      tag ∉ Voyis.knownMessageTags →
      Voyis.process_message tag pl t st = (st, [])) ∧
    (∀ (j : Voyis.Json) (received : List Voyis.Json),
      Voyis.jsonHasMessage j = false →
      Voyis.process_data (some j) received = (received, [])) ∧
    (∀ received : List Voyis.Json,
      Voyis.process_data none received
        = (received, ["ERROR: JSONDecodeError"])) := by
  refine ⟨?_, ?_, ?_⟩
  · intro st tag pl t h
    simp only [Voyis.knownMessageTags, List.mem_cons,
      List.mem_singleton] at h
    push_neg at h
    obtain ⟨h1, h2, h3, h4, h5, h6, h7, h8, h9, h10, h11, h12, h13, h14,
      h15, h16, h17, h18, -⟩ := h
    simp only [Voyis.process_message, if_neg h1, if_neg h2, if_neg h3,
      if_neg h4, if_neg h5, if_neg h6, if_neg h7, if_neg h8, if_neg h9,
      if_neg h10, if_neg h11, if_neg h12, if_neg h13, if_neg h14,
      if_neg h15, if_neg h16, if_neg h17, if_neg h18]
  · intro j received h
    simp [Voyis.process_data, h]
  · intro received
    rfl

/-- Witness for C7 (amended) at an unknown tag and a message-less
object. -/
theorem C7_amended_witness :
    Voyis.process_message "SomethingElseNot" none 0
      (Voyis.Store.start "10.9.9.9") = (Voyis.Store.start "10.9.9.9", []) ∧
    Voyis.process_data (some Voyis.Json.null) [] = ([], []) := by
  constructor
  · exact C7_amended.1 (Voyis.Store.start "10.9.9.9") "SomethingElseNot"
      none 0 (by decide)
  · exact C7_amended.2.1 Voyis.Json.null [] (by decide)

/-- **C9.** The `API500Client.connected` property returns `false`
whenever no protocol object exists yet (before `connect()` has run);
reading the connection state is total on an unconnected client. -/
theorem C9_connected_false_before_connect :
    ∀ c : Voyis.API500Client, c.protocol = none →
    Voyis.API500Client.connected c = false := by
  intro c h
  unfold Voyis.API500Client.connected
  rw [h]

/-- Witness for C9 on a freshly constructed client. -/
theorem C9_connected_false_before_connect_witness :
    Voyis.API500Client.connected
      (Voyis.API500Client.mk "192.168.1.10" 4875 none) = false :=
  C9_connected_false_before_connect _ rfl

/-- **C10.** Serializing a command with `needs_payload` set while its
payload is unset raises (`Except.error`) instead of producing a wire
message, and serializing a command with `needs_payload = false`
produces a wire object whose only member is `message` — it never
includes a `payload` member. -/
theorem C10_payload_guard :
    (∀ c : Voyis.API500Command, c.needs_payload = true → c.payload = none →
      Voyis.API500Command.to_str c
        = Except.error ("Command " ++ c.command ++ " needs a payload")) ∧
    (∀ c : Voyis.API500Command, c.needs_payload = false →
      Voyis.API500Command.to_str c
        = Except.ok (Voyis.serialize (Voyis.Json.obj
            (Voyis.JsonMembers.cons "message" (Voyis.Json.str c.command)
              Voyis.JsonMembers.nil)))) := by
  constructor
  · intro c h1 h2
    unfold Voyis.API500Command.to_str
    rw [if_pos ⟨h1, h2⟩]
  · intro c h
    unfold Voyis.API500Command.to_str
    rw [if_neg (by simp [h])]
    simp [h, Voyis.API500Message.to_str]

/-- Witness for C10 on two concrete commands. -/
theorem C10_payload_guard_witness :
    Voyis.API500Command.to_str
      (Voyis.API500Command.mk "start_scan_cmd" none true 0 ["AckRsp"])
      = Except.error ("Command " ++ "start_scan_cmd" ++ " needs a payload") ∧
    Voyis.API500Command.to_str
      (Voyis.API500Command.mk "version_query" none false 0 ["AckRsp"])
      = Except.ok (Voyis.serialize (Voyis.Json.obj
          (Voyis.JsonMembers.cons "message" (Voyis.Json.str "version_query")
            Voyis.JsonMembers.nil))) := by
  exact ⟨C10_payload_guard.1 _ rfl rfl, C10_payload_guard.2 _ rfl⟩

/-! ### Frame-splitting helper lemmas -/

/-- Unfolding equation of `hasBB` on two or more characters. -/
theorem hasBB_cons_cons (c₁ c₂ : Char) (rest : List Char) :
    Voyis.hasBB (c₁ :: c₂ :: rest)
      = if c₁ = Voyis.rbc ∧ c₂ = Voyis.lbc then true
        else Voyis.hasBB (c₂ :: rest) := rfl

/-- A separator-free text stays separator-free after dropping its head. -/
theorem hasBB_tail (c : Char) (l : List Char)
    (h : Voyis.hasBB (c :: l) = false) : Voyis.hasBB l = false := by
  cases l with
  | nil => rfl
  | cons b bs =>
    rw [hasBB_cons_cons] at h
    by_cases hc : c = Voyis.rbc ∧ b = Voyis.lbc
    · rw [if_pos hc] at h
      exact absurd h (by simp)
    · rw [if_neg hc] at h
      exact h

/-- Unfolding equation of `splitBraces` on two or more characters. -/
theorem splitBraces_cons_cons (c₁ c₂ : Char) (rest : List Char) :
    Voyis.splitBraces (c₁ :: c₂ :: rest)
      = if c₁ = Voyis.rbc ∧ c₂ = Voyis.lbc then
          [] :: Voyis.splitBraces rest
        else
          match Voyis.splitBraces (c₂ :: rest) with
          | [] => [[c₁]]
          | p :: ps => (c₁ :: p) :: ps := rfl

/-- `splitBraces` never returns the empty list of pieces. -/
theorem splitBraces_ne_nil : ∀ l : List Char, Voyis.splitBraces l ≠ [] := by
  intro l
  match l with
  | [] => simp [Voyis.splitBraces]
  | [c] => simp [Voyis.splitBraces]
  | c₁ :: c₂ :: rest =>
    rw [splitBraces_cons_cons]
    by_cases h : c₁ = Voyis.rbc ∧ c₂ = Voyis.lbc
    · rw [if_pos h]
      simp
    · rw [if_neg h]
      cases hs : Voyis.splitBraces (c₂ :: rest) with
      | nil => simp
      | cons p ps => simp

/-- A separator-free text is returned as the single piece. -/
theorem splitBraces_no : ∀ l : List Char, Voyis.hasBB l = false →
    Voyis.splitBraces l = [l] := by
  intro l
  induction l with
  | nil => intro _; rfl
  | cons c₁ tl ih =>
    intro h
    cases tl with
    | nil => rfl
    | cons c₂ rest =>
      rw [hasBB_cons_cons] at h
      by_cases hc : c₁ = Voyis.rbc ∧ c₂ = Voyis.lbc
      · rw [if_pos hc] at h
        exact absurd h (by simp)
      · rw [if_neg hc] at h
        rw [splitBraces_cons_cons, if_neg hc, ih h]

/-- Splitting a text that starts with a separator-free block ending in
a right brace, followed by a left brace: the first split happens
exactly at that junction. -/
theorem splitBraces_append : ∀ t : List Char, Voyis.hasBB t = false →
    t.getLast? = some Voyis.rbc →
    ∀ r, Voyis.splitBraces (t ++ Voyis.lbc :: r)
      = t.dropLast :: Voyis.splitBraces r := by
  intro t
  induction t with
  | nil =>
    intro _ hl
    simp at hl
  | cons c₁ tl ih =>
    intro h hl r
    cases tl with
    | nil =>
      have hc : c₁ = Voyis.rbc := by
        simpa using hl
      subst hc
      show Voyis.splitBraces (Voyis.rbc :: Voyis.lbc :: r)
          = [Voyis.rbc].dropLast :: Voyis.splitBraces r
      rw [splitBraces_cons_cons, if_pos ⟨rfl, rfl⟩]
      rfl
    | cons c₂ rest =>
      rw [hasBB_cons_cons] at h
      have hl' : (c₂ :: rest).getLast? = some Voyis.rbc := by
        rw [List.getLast?_cons_cons] at hl
        exact hl
      by_cases hc : c₁ = Voyis.rbc ∧ c₂ = Voyis.lbc
      · rw [if_pos hc] at h
        exact absurd h (by simp)
      · rw [if_neg hc] at h
        show Voyis.splitBraces (c₁ :: c₂ :: (rest ++ Voyis.lbc :: r)) = _
        rw [splitBraces_cons_cons, if_neg hc]
        rw [show c₂ :: (rest ++ Voyis.lbc :: r)
            = (c₂ :: rest) ++ Voyis.lbc :: r from rfl]
        rw [ih h hl' r]
        rfl

/-- `stripFirst` always yields at least one piece. -/
theorem stripFirst_ne_nil (t : List Char) (ss : List (List Char)) :
    Voyis.stripFirst t ss ≠ [] := by
  cases ss with
  | nil => simp [Voyis.stripFirst]
  | cons s rest => simp [Voyis.stripFirst]

/-- `stripFirst` yields one piece per frame plus the leading block. -/
theorem stripFirst_length (ss : List (List Char)) :
    ∀ t, (Voyis.stripFirst t ss).length = ss.length + 1 := by
  induction ss with
  | nil => intro t; rfl
  | cons s rest ih =>
    intro t
    show (t.dropLast :: Voyis.stripFirst s.tail rest).length = _
    simp [ih]

/-- Splitting a separator-free block followed by whole frames yields
exactly the `stripFirst` pieces. -/
theorem splitBraces_join : ∀ ss : List (List Char),
    (∀ s ∈ ss, Voyis.frameOK s) →
    ∀ t : List Char, Voyis.hasBB t = false →
    t.getLast? = some Voyis.rbc →
    Voyis.splitBraces (t ++ ss.flatten) = Voyis.stripFirst t ss := by
  intro ss
  induction ss with
  | nil =>
    intro _ t h _
    show Voyis.splitBraces (t ++ []) = [t]
    rw [List.append_nil]
    exact splitBraces_no t h
  | cons s rest ih =>
    intro hss t h hl
    obtain ⟨hsb, hshead, hslast, hslen⟩ := hss s (List.mem_cons_self s rest)
    cases s with
    | nil => simp at hshead
    | cons a as =>
      have ha : a = Voyis.lbc := by
        simpa using hshead
      subst ha
      have hasne : as ≠ [] := by
        intro h0
        subst h0
        simp at hslen
      have haslast : as.getLast? = some Voyis.rbc := by
        cases as with
        | nil => exact absurd rfl hasne
        | cons b bs =>
          rw [List.getLast?_cons_cons] at hslast
          exact hslast
      have hasbb : Voyis.hasBB as = false := hasBB_tail _ _ hsb
      show Voyis.splitBraces (t ++ (Voyis.lbc :: (as ++ rest.flatten)))
          = t.dropLast :: Voyis.stripFirst ((Voyis.lbc :: as).tail) rest
      rw [splitBraces_append t h hl (as ++ rest.flatten)]
      rw [show (Voyis.lbc :: as).tail = as from rfl]
      rw [ih (fun x hx => hss x (List.mem_cons_of_mem _ hx)) as hasbb haslast]

/-- Re-assembling a frame from its head brace, middle and tail brace. -/
theorem dropLast_append_of_getLast? (l : List Char) (c : Char)
    (h : l.getLast? = some c) : l.dropLast ++ [c] = l := by
  induction l with
  | nil => simp at h
  | cons a as ih =>
    cases as with
    | nil =>
      simp at h
      subst h
      rfl
    | cons b bs =>
      rw [List.getLast?_cons_cons] at h
      show a :: ((b :: bs).dropLast ++ [c]) = a :: (b :: bs)
      rw [ih h]

/-- A frame equals its left brace, stripped middle and right brace. -/
theorem frame_eq (t : List Char) (hhead : t.head? = some Voyis.lbc)
    (hlast : t.getLast? = some Voyis.rbc) (hlen : 2 ≤ t.length) :
    Voyis.lbc :: (t.tail.dropLast ++ [Voyis.rbc]) = t := by
  cases t with
  | nil => simp at hhead
  | cons a as =>
    have ha : a = Voyis.lbc := by
      simpa using hhead
    subst ha
    have hasne : as ≠ [] := by
      intro h0
      subst h0
      simp at hlen
    have haslast : as.getLast? = some Voyis.rbc := by
      cases as with
      | nil => exact absurd rfl hasne
      | cons b bs =>
        rw [List.getLast?_cons_cons] at hlast
        exact hlast
    show Voyis.lbc :: (as.dropLast ++ [Voyis.rbc]) = Voyis.lbc :: as
    rw [dropLast_append_of_getLast? as Voyis.rbc haslast]

/-- Re-bracketing the stripped pieces restores the original frames. -/
theorem rebracketRest_stripFirst : ∀ (ss : List (List Char))
    (t : List Char), Voyis.frameOK t → (∀ s ∈ ss, Voyis.frameOK s) →
    Voyis.rebracketRest (Voyis.stripFirst t.tail ss) = t :: ss := by
  intro ss
  induction ss with
  | nil =>
    intro t ht _
    obtain ⟨htb, hthead, htlast, htlen⟩ := ht
    show Voyis.rebracketRest [t.tail] = [t]
    show [Voyis.lbc :: t.tail] = [t]
    cases t with
    | nil => simp at hthead
    | cons a as =>
      have ha : a = Voyis.lbc := by
        simpa using hthead
      subst ha
      rfl
  | cons s rest ih =>
    intro t ht hss
    obtain ⟨htb, hthead, htlast, htlen⟩ := ht
    show Voyis.rebracketRest
        (t.tail.dropLast :: Voyis.stripFirst s.tail rest) = t :: s :: rest
    have hs := hss s (List.mem_cons_self s rest)
    cases hq : Voyis.stripFirst s.tail rest with
    | nil => exact absurd hq (stripFirst_ne_nil _ _)
    | cons q qs =>
      show (Voyis.lbc :: (t.tail.dropLast ++ [Voyis.rbc]))
          :: Voyis.rebracketRest (q :: qs) = t :: s :: rest
      rw [← hq, ih s hs (fun x hx => hss x (List.mem_cons_of_mem _ hx))]
      rw [frame_eq t hthead htlast htlen]

/-- **C2 (counterexample).** The single valid JSON object
`obj ("a" -> "\x7d\x7b")` — a string field containing the literal
separator — is split by `data_received` into 2 frames instead of being
yielded as exactly 1 frame parseable back to the original object:
the reassembler splits the text naively on the separator. -/
theorem C2_counterexample :
    (Voyis.data_received (Voyis.serialize (Voyis.Json.obj
        (Voyis.JsonMembers.cons "a" (Voyis.Json.str "\x7d\x7b")
          Voyis.JsonMembers.nil)))).length = 2 ∧
    Voyis.data_received (Voyis.serialize (Voyis.Json.obj
        (Voyis.JsonMembers.cons "a" (Voyis.Json.str "\x7d\x7b")
          Voyis.JsonMembers.nil)))
      ≠ [Voyis.serialize (Voyis.Json.obj
          (Voyis.JsonMembers.cons "a" (Voyis.Json.str "\x7d\x7b")
            Voyis.JsonMembers.nil))] := by
  decide

/-- **C2 (amended).** `data_received` splits the read naively on the
literal right-brace/left-brace separator.  For every nonempty sequence
of frames that each start with a left brace, end with a right brace and
contain no internal occurrence of the separator (in particular, no
string field containing it), concatenating them with no separator and
feeding the bytes to `data_received` yields exactly the original
frames.  (When a frame does contain the separator internally, the split
cuts it apart — see the counterexample.) -/
theorem C2_amended : ∀ (s₁ : List Char) (ss : List (List Char)),
    Voyis.frameOK s₁ → (∀ s ∈ ss, Voyis.frameOK s) →
    Voyis.data_received ((s₁ :: ss).flatten) = s₁ :: ss := by
  intro s₁ ss h1 hss
  obtain ⟨h1b, h1head, h1last, h1len⟩ := h1
  have hsplit : Voyis.splitBraces ((s₁ :: ss).flatten)
      = Voyis.stripFirst s₁ ss := by
    show Voyis.splitBraces (s₁ ++ ss.flatten) = _
    exact splitBraces_join ss hss s₁ h1b h1last
  unfold Voyis.data_received
  rw [hsplit]
  cases ss with
  | nil =>
    simp [Voyis.stripFirst]
  | cons s rest =>
    rw [show Voyis.stripFirst s₁ (s :: rest)
        = s₁.dropLast :: Voyis.stripFirst s.tail rest from rfl]
    have hlen : 1 < (s₁.dropLast :: Voyis.stripFirst s.tail rest).length := by
      simp [stripFirst_length]
    rw [if_pos hlen]
    show (s₁.dropLast ++ [Voyis.rbc])
        :: Voyis.rebracketRest (Voyis.stripFirst s.tail rest)
        = s₁ :: s :: rest
    rw [dropLast_append_of_getLast? s₁ Voyis.rbc h1last]
    rw [rebracketRest_stripFirst rest s
      (hss s (List.mem_cons_self s rest))
      (fun x hx => hss x (List.mem_cons_of_mem _ hx))]

/-- Witness for C2 (amended): two concrete serialized objects
concatenated with no separator come back as exactly those two frames. -/
theorem C2_amended_witness :
    Voyis.data_received
      ([Voyis.serialize (Voyis.Json.obj (Voyis.JsonMembers.cons "a"
          (Voyis.Json.num 1) Voyis.JsonMembers.nil)),
        Voyis.serialize (Voyis.Json.obj (Voyis.JsonMembers.cons "b"
          (Voyis.Json.num 2) Voyis.JsonMembers.nil))]).flatten
      = [Voyis.serialize (Voyis.Json.obj (Voyis.JsonMembers.cons "a"
          (Voyis.Json.num 1) Voyis.JsonMembers.nil)),
         Voyis.serialize (Voyis.Json.obj (Voyis.JsonMembers.cons "b"
          (Voyis.Json.num 2) Voyis.JsonMembers.nil))] := by
  exact C2_amended
    (Voyis.serialize (Voyis.Json.obj (Voyis.JsonMembers.cons "a"
      (Voyis.Json.num 1) Voyis.JsonMembers.nil)))
    [Voyis.serialize (Voyis.Json.obj (Voyis.JsonMembers.cons "b"
      (Voyis.Json.num 2) Voyis.JsonMembers.nil))]
    (by decide) (by decide)
